import Mathlib

/-!
Shallow embedding of `EDAModule.py` (class `ExploratoryDataAnalysis`), a thin
wrapper around a tabular dataset: structural queries (shape, size, head,
columns, dtypes, null counts), chart-grid generators (boxplots, histograms,
bar charts), a correlation heat map, and two best-effort auto-EDA delegations.

The dataset model follows pandas: a column-major frame with named, dtyped
columns whose cells may be missing (null/NaN).  External library behaviour
that the source relies on (pandas selection/serialization, matplotlib
`subplots` squeezing and axes indexing) is embedded explicitly.
-/

namespace EDA

/-- A concrete value stored in a dataset cell. -/
inductive Val where
  | str : String → Val
  | num : ℚ → Val
deriving DecidableEq

/-- A cell of the dataset: `none` models a missing value (null/NaN). -/
abbrev Cell := Option Val

/-- Column dtypes as inferred by pandas; the source selects on
`float64`, `int64`, `object`, `category`. -/
inductive Dtype where
  | float64
  | int64
  | object
  | category
  | boolean
  | datetime64
deriving DecidableEq

/-- A named, dtyped column of cells. -/
structure Column where
  name : String
  dtype : Dtype
  cells : List Cell
deriving DecidableEq

/-- A pandas DataFrame: a row count and a list of columns. -/
structure DataFrame where
  nrows : Nat
  cols : List Column
deriving DecidableEq

/-- Well-formedness: every column holds exactly `nrows` cells
(pandas frames are rectangular). -/
def DataFrame.WF (df : DataFrame) : Prop :=
  ∀ c ∈ df.cols, c.cells.length = df.nrows

instance (df : DataFrame) : Decidable df.WF :=
  List.decidableBAll _ df.cols

/-- pandas `df.shape`: (row count, column count). -/
def DataFrame.shape (df : DataFrame) : Nat × Nat :=
  (df.nrows, df.cols.length)

/-- pandas `df.size`: the number of elements (cells) held by the frame. -/
def DataFrame.size (df : DataFrame) : Nat :=
  (df.cols.map (fun c => c.cells.length)).sum

/-- pandas `df.head(n)` (the source calls it with the default `n = 5`):
the first `min n R` rows, each column truncated accordingly. -/
def DataFrame.head (df : DataFrame) (n : Nat) : DataFrame :=
  { nrows := min n df.nrows
    cols := df.cols.map (fun c => { c with cells := c.cells.take n }) }

/-- pandas `df.select_dtypes(include=incl)`: keep the columns whose dtype
is in the include list. -/
def DataFrame.select_dtypes (df : DataFrame) (incl : List Dtype) : DataFrame :=
  { nrows := df.nrows
    cols := df.cols.filter (fun c => decide (c.dtype ∈ incl)) }

/-- Row `i` of the frame, as the list of the cells of the columns at index `i`
(`none` both for a stored null and past the end; used only below `nrows`). -/
def DataFrame.rowAt (df : DataFrame) (i : Nat) : List Cell :=
  df.cols.map (fun c => c.cells.getD i none)

/-- The inspector object: `__init__` stores the dataset; the `description`
attribute does not exist until `setDescription` assigns it, which we model
with an `Option` that starts out `none`. -/
structure ExploratoryDataAnalysis where
  dataset : DataFrame
  description : Option String
deriving DecidableEq

/-- Constructor `ExploratoryDataAnalysis(dataset)`: binds the dataset; no other
attribute is assigned. -/
def init (dataset : DataFrame) : ExploratoryDataAnalysis :=
  { dataset := dataset, description := none }

/-- Method `setDescription(self, description)`: assigns `self.description`. -/
def setDescription (eda : ExploratoryDataAnalysis) (description : String) :
    ExploratoryDataAnalysis :=
  { eda with description := some description }

/-- The message of the `AttributeError` Python raises when
`self.description` is read before being assigned. -/
def attributeErrorDescription : String :=
  "AttributeError: ExploratoryDataAnalysis object has no attribute description"

/-- Method `getDescription(self)`: returns `self.description`; reading the
attribute before any assignment raises `AttributeError`. -/
def getDescription (eda : ExploratoryDataAnalysis) : Except String String :=
  match eda.description with
  | none => .error attributeErrorDescription
  | some d => .ok d

/-- Method `getShape(self)`: returns `self.dataset.shape`. -/
def getShape (eda : ExploratoryDataAnalysis) : Nat × Nat :=
  eda.dataset.shape

/-- Method `getSize(self)`: returns `self.dataset.size`. -/
def getSize (eda : ExploratoryDataAnalysis) : Nat :=
  eda.dataset.size

/-- Method `getHead(self)`: returns `self.dataset.head()` (first 5 rows). -/
def getHead (eda : ExploratoryDataAnalysis) : DataFrame :=
  eda.dataset.head 5

/-- Method `getColumns(self)`: returns `self.dataset.columns`. -/
def getColumns (eda : ExploratoryDataAnalysis) : List String :=
  eda.dataset.cols.map Column.name

/-- Method `getTypes(self)`: returns `self.dataset.dtypes`. -/
def getTypes (eda : ExploratoryDataAnalysis) : List (String × Dtype) :=
  eda.dataset.cols.map (fun c => (c.name, c.dtype))

/-- Method `getNulls(self)`: returns `self.dataset.isnull().sum()` — per column,
each cell is mapped to whether it is null, and the booleans are summed
(counted as `True`s). -/
def getNulls (eda : ExploratoryDataAnalysis) : List (String × Nat) :=
  eda.dataset.cols.map (fun c => (c.name, (c.cells.map Option.isNone).count true))

/-- Method `get_numeric_columns(self)`:
`self.dataset.select_dtypes` with include list float64, int64, then `.columns`. -/
def get_numeric_columns (eda : ExploratoryDataAnalysis) : List String :=
  (eda.dataset.select_dtypes [.float64, .int64]).cols.map Column.name

/-- Method `get_categorical_columns(self)`:
`self.dataset.select_dtypes` with include list object, category, then `.columns`. -/
def get_categorical_columns (eda : ExploratoryDataAnalysis) : List String :=
  (eda.dataset.select_dtypes [.object, .category]).cols.map Column.name

/-- Reference notion (spec side): the number of missing entries of a column. -/
def Column.missingCount (c : Column) : Nat :=
  c.cells.countP (fun x => x.isNone)

/-- Reference notion (spec side): the total number of missing values of the
dataset. -/
def DataFrame.totalMissing (df : DataFrame) : Nat :=
  (df.cols.map Column.missingCount).sum

/-- Python `math.ceil(a / b)` for natural `a` and positive natural `b`. -/
def mathCeil (a b : Nat) : Nat :=
  (a + b - 1) / b

/-- The value returned by `plt.subplots(nrows, ncols)` with the default
`squeeze=True`: a bare Axes for a 1×1 request, a 1-D ndarray of Axes when
exactly one of the two dimensions is 1, and a 2-D ndarray otherwise. -/
inductive AxesArray where
  | single
  | flat (n : Nat)
  | grid (r c : Nat)
deriving DecidableEq

/-- Model of `plt.subplots(nrows, ncols)` under the default `squeeze=True`. -/
def subplots (nrows ncols : Nat) : AxesArray :=
  if nrows = 1 ∧ ncols = 1 then .single
  else if nrows = 1 then .flat ncols
  else if ncols = 1 then .flat nrows
  else .grid nrows ncols

/-- Evaluating `axs[i, j]`: only a 2-D ndarray supports a 2-tuple index;
a 1-D ndarray raises `IndexError: too many indices`, a bare Axes raises
`TypeError`. -/
def AxesArray.index2 : AxesArray → Nat → Nat → Except String (Nat × Nat)
  | .grid r c, i, j =>
      if i < r ∧ j < c then .ok (i, j)
      else .error "IndexError: index out of bounds"
  | .flat _, _, _ => .error "IndexError: too many indices for array"
  | .single, _, _ => .error "TypeError: Axes object is not subscriptable"

/-- A grid cell of a chart figure: either a subplot populated with the chart
of the named variable, or a cell hidden by turning its axis off. -/
inductive SubplotCell where
  | plotted (title : String)
  | hidden
deriving DecidableEq

/-- The common chart-grid loop shared verbatim by `getBoxplots`,
`getHistograms` and `plot_bar_charts_categorical_columns`:

```
num_cols = 3
num_rows = math.ceil(len(vars) / num_cols)
fig, axs = plt.subplots(num_rows, num_cols, ...)
variable_index = 0
for i in range(num_rows):
  for j in range(num_cols):
    if variable_index < len(vars):
      ... plot vars[variable_index] on axs[i, j]; set title ...
      variable_index += 1
    else:
      axs[i, j].axis(off)
```

The result is the list of laid-out cells in visiting order, or the Python
exception that escapes the loop. -/
def chartGrid (vars : List String) :
    Except String (List ((Nat × Nat) × SubplotCell)) := do
  let num_cols := 3
  let num_rows := mathCeil vars.length num_cols
  let axs := subplots num_rows num_cols
  let mut variable_index := 0
  let mut cells : List ((Nat × Nat) × SubplotCell) := []
  for i in List.range num_rows do
    for j in List.range num_cols do
      if variable_index < vars.length then
        let _ ← axs.index2 i j
        cells := cells ++ [((i, j), .plotted (vars.getD variable_index ""))]
        variable_index := variable_index + 1
      else
        let _ ← axs.index2 i j
        cells := cells ++ [((i, j), .hidden)]
  return cells

/-- Method `getBoxplots(self)`: lays out one box plot per numeric column on a
3-wide grid of `ceil(N/3)` rows, hiding the leftover cells. -/
def getBoxplots (eda : ExploratoryDataAnalysis) :
    Except String (List ((Nat × Nat) × SubplotCell)) :=
  chartGrid (get_numeric_columns eda)

/-- Method `getHistograms(self, nBins=10)`: identical grid loop over the numeric
columns, drawing histograms with `nBins` bins (the bin count does not affect
the layout). -/
def getHistograms (eda : ExploratoryDataAnalysis) (_nBins : Nat) :
    Except String (List ((Nat × Nat) × SubplotCell)) :=
  chartGrid (get_numeric_columns eda)

/-- Method `plot_bar_charts_categorical_columns(self)`: identical grid loop over
the categorical columns, drawing bar charts of value counts. -/
def plot_bar_charts_categorical_columns (eda : ExploratoryDataAnalysis) :
    Except String (List ((Nat × Nat) × SubplotCell)) :=
  chartGrid (get_categorical_columns eda)

/-- Spec-side layout reference: ceil(N/3) rows of 3 cells, the first N
populated with the eligible columns in order, the rest hidden. -/
def expectedGrid (vars : List String) : List ((Nat × Nat) × SubplotCell) :=
  (List.range (mathCeil vars.length 3)).flatMap (fun i =>
    (List.range 3).map (fun j =>
      if h : 3 * i + j < vars.length then
        ((i, j), .plotted (vars.get ⟨3 * i + j, h⟩))
      else
        ((i, j), .hidden)))

/-- CSV rendering of a cell (`to_csv`: missing values become empty fields). -/
def Cell.toCsvField : Cell → String
  | none => ""
  | some (.str s) => s
  | some (.num q) => toString q

/-- pandas `df.to_csv(path, index=False)` contents: a header of column
names followed by one comma-separated line per row, no index column. -/
def DataFrame.to_csv (df : DataFrame) : String :=
  String.intercalate "\n"
    (String.intercalate "," (df.cols.map Column.name) ::
      (List.range df.nrows).map (fun i =>
        String.intercalate "," (df.cols.map (fun c =>
          Cell.toCsvField (c.cells.getD i none)))))

/-- The working directory as a map from file name to contents. -/
abbrev FS := String → Option String

/-- Writing a file: creates it or overwrites its previous contents. -/
def writeFile (fs : FS) (name contents : String) : FS :=
  fun m => if m = name then some contents else fs m

/-- The outcomes of the import machinery and of the delegated report run,
supplied by the environment: `firstImport` is the initial `import` statement
(`.error` models an `ImportError`), `retryImport` is the whole
`pip install` + re-import recovery (`.error` models any exception caught by
`except Exception as e`), and `delegateRun` is the external report
generation performed once the library is available. -/
structure ImportEnv where
  firstImport : Except String Unit
  retryImport : Except String Unit
  delegateRun : Except String Unit

/-- The observable outcome of running a Python method: the lines it printed
and either the value it returned (`.ok`; Python `None` is `none`) or the
exception that propagated to the caller (`.error`). -/
structure PyRun where
  printed : List String
  result : Except String (Option Val)

/-- Method `getAutomaticStatisticalEDA(self)`: try to import sweetviz; on
`ImportError` print a notice, attempt `pip install` and a re-import, and on
a further exception `e` print the error message (interpolating `e`) and
`return`; once the library is available, delegate to
`sv.analyze(...).show_notebook(...)`. -/
def getAutomaticStatisticalEDA (env : ImportEnv) : PyRun :=
  match env.firstImport with
  | .ok _ =>
      match env.delegateRun with
      | .ok _ => { printed := [], result := .ok none }
      | .error e => { printed := [], result := .error e }
  | .error _ =>
      let notice := "Sweetviz no está instalado. Intentando instalarlo..."
      match env.retryImport with
      | .ok _ =>
          match env.delegateRun with
          | .ok _ => { printed := [notice], result := .ok none }
          | .error e => { printed := [notice], result := .error e }
      | .error e =>
          let msg := "No se pudo instalar Sweetviz. Por favor, instálalo manualmente. Error: " ++ e
          { printed := [notice, msg], result := .ok none }

/-- The fixed file name used by `getAutomaticGraphicalEDA`. -/
def csv_filename : String := "temp_dataset.csv"

/-- Method `getAutomaticGraphicalEDA(self)`: same import/install/retry pattern for
autoviz; once the library is available, write the dataset to
`temp_dataset.csv` (`index=False`) in the working directory and delegate to
`AutoViz_Class().AutoViz(csv_filename)`.  Returns the observable run
together with the resulting working directory. -/
def getAutomaticGraphicalEDA (env : ImportEnv)
    (eda : ExploratoryDataAnalysis) (fs : FS) : PyRun × FS :=
  match env.firstImport with
  | .ok _ =>
      let fs1 := writeFile fs csv_filename eda.dataset.to_csv
      match env.delegateRun with
      | .ok _ => ({ printed := [], result := .ok none }, fs1)
      | .error e => ({ printed := [], result := .error e }, fs1)
  | .error _ =>
      let notice := "Autoviz no está instalado. Intentando instalarlo..."
      match env.retryImport with
      | .ok _ =>
          let fs1 := writeFile fs csv_filename eda.dataset.to_csv
          match env.delegateRun with
          | .ok _ => ({ printed := [notice], result := .ok none }, fs1)
          | .error e => ({ printed := [notice], result := .error e }, fs1)
      | .error e =>
          let msg := "No se pudo instalar Autoviz. Por favor, instálalo manualmente. Error: " ++ e
          ({ printed := [notice, msg], result := .ok none }, fs)

/-- Method `getStatistics(self)`: `self.dataset.describe()` — descriptive
statistics of the numeric columns; the floating-point summaries themselves
are library work, so the model exposes the per-numeric-column data handed
to it. -/
def getStatistics (eda : ExploratoryDataAnalysis) : List (String × List Cell) :=
  (eda.dataset.select_dtypes [.float64, .int64]).cols.map (fun c => (c.name, c.cells))

/-- Method `getUniques(self)`: `self.dataset.nunique()` — per column, the
number of distinct non-null values. -/
def getUniques (eda : ExploratoryDataAnalysis) : List (String × Nat) :=
  eda.dataset.cols.map (fun c => (c.name, (c.cells.filterMap id).dedup.length))

/-- pandas `value_counts()` of a column: each distinct non-null value with
its frequency (pandas orders by descending count; no claim depends on the
order, so first-appearance order is used). -/
def Column.value_counts (c : Column) : List (Val × Nat) :=
  (c.cells.filterMap id).dedup.map (fun v => (v, (c.cells.filterMap id).count v))

/-- Method `countUniques(self)`: one block per column interpolating the
value counts of the column into a running string; the model exposes the
interpolated per-column data. -/
def countUniques (eda : ExploratoryDataAnalysis) : List (String × List (Val × Nat)) :=
  eda.dataset.cols.map (fun c => (c.name, c.value_counts))

/-- pandas `df.corr()` under its legacy default, which this module was
written against: restrict to the numeric columns and compute their pairwise
correlation.  The numeric value of each entry is floating-point work done
by the numeric library and is abstracted by the kernel `pearson`. -/
def DataFrame.corr (pearson : List Cell → List Cell → ℚ) (df : DataFrame) :
    Except String (List ((String × String) × ℚ)) :=
  let numeric := (df.select_dtypes [.float64, .int64]).cols
  .ok (numeric.flatMap (fun c1 =>
    numeric.map (fun c2 => ((c1.name, c2.name), pearson c1.cells c2.cells))))

/-- A rendered seaborn heat map: the annotated matrix and the figure title. -/
structure Heatmap where
  matrix : List ((String × String) × ℚ)
  annot : Bool
  title : String

/-- Method `getCorrelationMatrix(self)`: computes
`correlation_matrix = self.dataset.corr()`, renders
`sns.heatmap(correlation_matrix, annot=True, ...)` titled
"Correlation Matrix", and returns `None`. -/
def getCorrelationMatrix (pearson : List Cell → List Cell → ℚ)
    (eda : ExploratoryDataAnalysis) : Except String (Heatmap × Option Val) := do
  let correlation_matrix ← eda.dataset.corr pearson
  return ({ matrix := correlation_matrix, annot := true, title := "Correlation Matrix" },
    none)

/-- Spec-side reference: all ordered pairs over a list of column names. -/
def allPairs (l : List String) : List (String × String) :=
  l.flatMap (fun a => l.map (fun b => (a, b)))

/-- The methods of the inspector, reified so that frame conditions can be
stated uniformly over all of them. -/
inductive Method where
  | mSetDescription (s : String)
  | mGetDescription
  | mGetShape
  | mGetSize
  | mGetHead
  | mGetColumns
  | mGetTypes
  | mGetStatistics
  | mGetNulls
  | mGetNumericColumns
  | mGetBoxplots
  | mGetUniques
  | mCountUniques
  | mGetHistograms (nBins : Nat)
  | mGetCategoricalColumns
  | mPlotBarCharts
  | mGetCorrelationMatrix
  | mGetAutomaticStatisticalEDA
  | mGetAutomaticGraphicalEDA
deriving DecidableEq

/-- Runs one method call and returns the inspector state and the working
directory after the call.  Only `setDescription` assigns an attribute (and
it assigns `description`, not `dataset`), and only `getAutomaticGraphicalEDA`
touches the file system; each query method evaluates its output from the
bound dataset, which is discarded here by the constant function wrapping. -/
def runMethod (m : Method) (env : ImportEnv)
    (pearson : List Cell → List Cell → ℚ)
    (eda : ExploratoryDataAnalysis) (fs : FS) :
    ExploratoryDataAnalysis × FS :=
  match m with
  | .mSetDescription s => (setDescription eda s, fs)
  | .mGetDescription => (fun _ => (eda, fs)) (getDescription eda)
  | .mGetShape => (fun _ => (eda, fs)) (getShape eda)
  | .mGetSize => (fun _ => (eda, fs)) (getSize eda)
  | .mGetHead => (fun _ => (eda, fs)) (getHead eda)
  | .mGetColumns => (fun _ => (eda, fs)) (getColumns eda)
  | .mGetTypes => (fun _ => (eda, fs)) (getTypes eda)
  | .mGetStatistics => (fun _ => (eda, fs)) (getStatistics eda)
  | .mGetNulls => (fun _ => (eda, fs)) (getNulls eda)
  | .mGetNumericColumns => (fun _ => (eda, fs)) (get_numeric_columns eda)
  | .mGetBoxplots => (fun _ => (eda, fs)) (getBoxplots eda)
  | .mGetUniques => (fun _ => (eda, fs)) (getUniques eda)
  | .mCountUniques => (fun _ => (eda, fs)) (countUniques eda)
  | .mGetHistograms nBins => (fun _ => (eda, fs)) (getHistograms eda nBins)
  | .mGetCategoricalColumns => (fun _ => (eda, fs)) (get_categorical_columns eda)
  | .mPlotBarCharts => (fun _ => (eda, fs)) (plot_bar_charts_categorical_columns eda)
  | .mGetCorrelationMatrix => (fun _ => (eda, fs)) (getCorrelationMatrix pearson eda)
  | .mGetAutomaticStatisticalEDA => (fun _ => (eda, fs)) (getAutomaticStatisticalEDA env)
  | .mGetAutomaticGraphicalEDA => (eda, (getAutomaticGraphicalEDA env eda fs).2)

/-- Concrete two-column dataset used in witnesses:
column `a` of dtype int64 with cells 1, null, 2, and
column `b` of dtype object with cells x, y, y. -/
def dfW : DataFrame :=
  { nrows := 3
    cols := [
      { name := "a", dtype := .int64
        cells := [some (.num 1), none, some (.num 2)] },
      { name := "b", dtype := .object
        cells := [some (.str "x"), some (.str "y"), some (.str "y")] }] }

/-- A dataset with a single numeric column. -/
def dfOneNumeric : DataFrame :=
  { nrows := 2
    cols := [{ name := "a", dtype := .float64
               cells := [some (.num 1), some (.num 2)] }] }

/-- A dataset with a single categorical column. -/
def dfOneCategorical : DataFrame :=
  { nrows := 2
    cols := [{ name := "b", dtype := .object
               cells := [some (.str "x"), some (.str "y")] }] }

/-- A seven-row dataset, exercising the head truncation. -/
def dfSeven : DataFrame :=
  { nrows := 7
    cols := [{ name := "a", dtype := .int64
               cells := (List.range 7).map (fun i => some (.num i)) }] }

/-- Environment where both the sweetviz import and the install-and-retry
fail. -/
def envSW : ImportEnv :=
  { firstImport := .error "No module named sweetviz"
    retryImport := .error "cannot import name sv from sweetviz"
    delegateRun := .ok () }

/-- Environment where both the autoviz import and the install-and-retry
fail. -/
def envGW : ImportEnv :=
  { firstImport := .error "No module named autoviz"
    retryImport := .error "pip install failed"
    delegateRun := .ok () }

/-- Environment where every import and the delegated run succeed. -/
def envOk : ImportEnv :=
  { firstImport := .ok (), retryImport := .ok (), delegateRun := .ok () }

/-- The empty working directory. -/
def fsEmpty : FS := fun _ => none

/-- A trivial correlation kernel used in witnesses. -/
def pearsonZero : List Cell → List Cell → ℚ := fun _ _ => 0

/-- Counting the true results of a boolean map equals counting with the
predicate directly (pandas `isnull().sum()` versus counting missing cells). -/
theorem count_true_map (p : Cell → Bool) (l : List Cell) :
    (l.map p).count true = l.countP p := by
  induction l with
  | nil => rfl
  | cons a t ih =>
      simp only [List.map_cons, List.count_cons, List.countP_cons, ih]
      cases h : p a <;> simp [h]

/-- Summing column lengths of a rectangular frame gives rows times columns. -/
theorem sum_lengths_of_rect (n : Nat) :
    ∀ cs : List Column, (∀ c ∈ cs, c.cells.length = n) →
      (cs.map (fun c => c.cells.length)).sum = n * cs.length := by
  intro cs
  induction cs with
  | nil => intro _; simp
  | cons a t ih =>
      intro h
      have ha := h a (by simp)
      have ht := ih (fun c hc => h c (by simp [hc]))
      simp only [List.map_cons, List.sum_cons, ha, ht, List.length_cons]
      ring

/-- With pairwise distinct keys, looking a key up in a keyed map of the
columns finds the value computed from that column. -/
theorem lookup_map_by_name (val : Column → Nat) :
    ∀ cs : List Column, (cs.map Column.name).Nodup → ∀ c ∈ cs,
      (cs.map (fun c2 => (c2.name, val c2))).lookup c.name = some (val c) := by
  intro cs
  induction cs with
  | nil => intro _ c hc; cases hc
  | cons a t ih =>
      intro hnd c hc
      have hnd2 : (t.map Column.name).Nodup := (List.nodup_cons.mp hnd).2
      have hna : a.name ∉ t.map Column.name := (List.nodup_cons.mp hnd).1
      rcases List.mem_cons.mp hc with rfl | hct
      · simp [List.lookup_cons]
      · have hne : ¬ (c.name == a.name) = true := by
          intro hb
          exact hna (beq_iff_eq.mp hb ▸ List.mem_map_of_mem Column.name hct)
        simp only [List.map_cons, List.lookup_cons, hne, if_neg]
        · exact ih hnd2 c hct

/-- C2: on a freshly constructed inspector, `getDescription` fails with the
attribute-not-found error, and after `setDescription x` it returns exactly
`x`. -/
theorem setget_description_roundtrip (df : DataFrame) (x : String) :
    getDescription (init df) = .error attributeErrorDescription ∧
    getDescription (setDescription (init df) x) = .ok x :=
  ⟨rfl, rfl⟩

/-- C4: on a rectangular dataset with `R` rows and `C` columns, `getShape`
returns the pair `(R, C)` and `getSize` returns the product `R * C`. -/
theorem shape_size_product (df : DataFrame) (h : df.WF) :
    getShape (init df) = (df.nrows, df.cols.length) ∧
    getSize (init df) = df.nrows * df.cols.length := by
  refine ⟨rfl, ?_⟩
  exact sum_lengths_of_rect df.nrows df.cols h

/-- C4 witness: the shape and size of the concrete 3×2 dataset. -/
theorem shape_size_product_witness :
    dfW.WF ∧
    (getShape (init dfW) = (3, 2) ∧ getSize (init dfW) = 3 * 2) :=
  ⟨by decide, shape_size_product dfW (by decide)⟩

/-- C10: `getHead` returns exactly the first `min 5 R` rows of the dataset,
keeping the column names, the rectangular shape, and the original row
contents and order; in particular a dataset with fewer than five rows keeps
all its rows. -/
theorem head_first_min5_rows (df : DataFrame) (h : df.WF) :
    (getHead (init df)).nrows = min 5 df.nrows ∧
    (getHead (init df)).WF ∧
    (getHead (init df)).cols.map Column.name = df.cols.map Column.name ∧
    (∀ i, i < min 5 df.nrows → (getHead (init df)).rowAt i = df.rowAt i) := by
  refine ⟨rfl, ?_, ?_, ?_⟩
  · intro c hc
    rcases List.mem_map.mp hc with ⟨c0, hc0, rfl⟩
    show (c0.cells.take 5).length = min 5 df.nrows
    rw [List.length_take, h c0 hc0]
  · show (df.cols.map _).map Column.name = _
    rw [List.map_map]
    rfl
  · intro i hi
    simp only [getHead, init, DataFrame.head, DataFrame.rowAt, List.map_map]
    refine List.map_congr_left ?_
    intro c _
    show (c.cells.take 5).getD i none = c.cells.getD i none
    rw [List.getD_eq_getElem?_getD, List.getD_eq_getElem?_getD,
      List.getElem?_take_of_lt (lt_of_lt_of_le hi (min_le_left 5 df.nrows))]

/-- C10 witness: heading the seven-row dataset. -/
theorem head_first_min5_rows_witness :
    dfSeven.WF ∧
    ((getHead (init dfSeven)).nrows = min 5 dfSeven.nrows ∧
     (getHead (init dfSeven)).WF ∧
     (getHead (init dfSeven)).cols.map Column.name = dfSeven.cols.map Column.name ∧
     (∀ i, i < min 5 dfSeven.nrows →
       (getHead (init dfSeven)).rowAt i = dfSeven.rowAt i)) :=
  ⟨by decide, head_first_min5_rows dfSeven (by decide)⟩

/-- C5: `getNulls` reports, for every column, exactly the number of missing
entries of that column, and the values of the report sum to the total
number of missing values of the dataset. -/
theorem nulls_per_column_and_total (df : DataFrame)
    (hnodup : (df.cols.map Column.name).Nodup) :
    (∀ c ∈ df.cols, (getNulls (init df)).lookup c.name = some c.missingCount) ∧
    ((getNulls (init df)).map Prod.snd).sum = df.totalMissing := by
  have hfun : getNulls (init df) = df.cols.map (fun c2 => (c2.name, c2.missingCount)) := by
    refine List.map_congr_left ?_
    intro c2 _
    simp [Column.missingCount, count_true_map]
  constructor
  · intro c hc
    rw [hfun]
    exact lookup_map_by_name Column.missingCount df.cols hnodup c hc
  · rw [hfun, List.map_map]
    rfl

/-- C5 witness: the null report of the concrete dataset with one missing
cell. -/
theorem nulls_per_column_and_total_witness :
    (dfW.cols.map Column.name).Nodup ∧
    ((∀ c ∈ dfW.cols, (getNulls (init dfW)).lookup c.name = some c.missingCount) ∧
     ((getNulls (init dfW)).map Prod.snd).sum = dfW.totalMissing) :=
  ⟨by decide, nulls_per_column_and_total dfW (by decide)⟩

/-- C3: on a dataset whose columns are all of numeric (float64/int64) or
object/categorical dtype, every column name is returned by
`get_numeric_columns` or by `get_categorical_columns`, and no name is
returned by both. -/
theorem numeric_categorical_partition (df : DataFrame)
    (hnodup : (df.cols.map Column.name).Nodup)
    (htypes : ∀ c ∈ df.cols,
      c.dtype ∈ ([.float64, .int64] : List Dtype) ∨
      c.dtype ∈ ([.object, .category] : List Dtype)) :
    (∀ c ∈ df.cols,
      c.name ∈ get_numeric_columns (init df) ∨
      c.name ∈ get_categorical_columns (init df)) ∧
    (∀ x ∈ get_numeric_columns (init df), x ∉ get_categorical_columns (init df)) := by
  constructor
  · intro c hc
    rcases htypes c hc with h | h
    · left
      exact List.mem_map_of_mem Column.name (List.mem_filter.mpr ⟨hc, decide_eq_true h⟩)
    · right
      exact List.mem_map_of_mem Column.name (List.mem_filter.mpr ⟨hc, decide_eq_true h⟩)
  · intro x hx hx2
    rcases List.mem_map.mp hx with ⟨c1, hc1, rfl⟩
    rcases List.mem_map.mp hx2 with ⟨c2, hc2, heq⟩
    have hc1m := List.mem_filter.mp hc1
    have hc2m := List.mem_filter.mp hc2
    have h12 : c2 = c1 := List.inj_on_of_nodup_map hnodup hc2m.1 hc1m.1 heq
    have h1 : c1.dtype ∈ ([.float64, .int64] : List Dtype) := of_decide_eq_true hc1m.2
    have h2 : c2.dtype ∈ ([.object, .category] : List Dtype) := of_decide_eq_true hc2m.2
    rw [h12] at h2
    rcases List.mem_cons.mp h1 with h1 | h1 <;>
      rcases List.mem_cons.mp h2 with h2 | h2 <;>
        simp_all

/-- C1 (failing input): at a dataset with exactly one numeric column — and
one with exactly one categorical column — each of the three chart
operations raises IndexError instead of completing: for 1 ≤ N ≤ 3 eligible
columns the grid has ceil(N/3) = 1 row, `plt.subplots` squeezes the 1×3
axes array to one dimension, and the two-index access `axs[i, j]` fails on
the very first cell.  The fourth conjunct records the layout the claim
expects there (one populated cell, two hidden), and the fifth shows the
same loop does lay out the claimed grid once the axes array is
two-dimensional (N = 4: six cells, four populated, two hidden). -/
theorem chart_grid_small_n_indexerror :
    getBoxplots (init dfOneNumeric)
      = .error "IndexError: too many indices for array" ∧
    getHistograms (init dfOneNumeric) 10
      = .error "IndexError: too many indices for array" ∧
    plot_bar_charts_categorical_columns (init dfOneCategorical)
      = .error "IndexError: too many indices for array" ∧
    expectedGrid (get_numeric_columns (init dfOneNumeric))
      = [((0, 0), .plotted "a"), ((0, 1), .hidden), ((0, 2), .hidden)] ∧
    chartGrid ["a", "b", "c", "d"] = .ok (expectedGrid ["a", "b", "c", "d"]) :=
  ⟨rfl, rfl, rfl, rfl, rfl⟩

/-- C6: `getCorrelationMatrix` renders an annotated heat map whose matrix
is the pairwise correlation over exactly the numeric columns, titled
"Correlation Matrix", and returns no value — for every dataset, also one
holding non-numeric columns (pandas legacy `corr()` silently restricts to
the numeric columns). -/
theorem correlation_over_numeric_columns (pearson : List Cell → List Cell → ℚ)
    (df : DataFrame) :
    ∃ hm : Heatmap,
      getCorrelationMatrix pearson (init df) = .ok (hm, none) ∧
      hm.matrix.map Prod.fst = allPairs (get_numeric_columns (init df)) ∧
      hm.annot = true ∧ hm.title = "Correlation Matrix" := by
  refine ⟨_, rfl, ?_, rfl, rfl⟩
  simp only [allPairs, get_numeric_columns, List.map_flatMap, List.flatMap_map,
    List.map_map]
  rfl

/-- C7: when the import of the auto-EDA library fails and the single
install-and-retry attempt also fails with exception text `e`, both auto-EDA
operations print the install notice followed by an error line interpolating
`e`, and return normally with Python `None` — no exception reaches the
caller (and the graphical variant leaves the working directory untouched). -/
theorem autoeda_degrade_and_continue (envS envG : ImportEnv)
    (m1 e1 m2 e2 : String) (eda : ExploratoryDataAnalysis) (fs : FS)
    (h1 : envS.firstImport = .error m1) (h2 : envS.retryImport = .error e1)
    (h3 : envG.firstImport = .error m2) (h4 : envG.retryImport = .error e2) :
    (getAutomaticStatisticalEDA envS).printed
      = ["Sweetviz no está instalado. Intentando instalarlo...",
         "No se pudo instalar Sweetviz. Por favor, instálalo manualmente. Error: " ++ e1] ∧
    (getAutomaticStatisticalEDA envS).result = .ok none ∧
    (getAutomaticGraphicalEDA envG eda fs).1.printed
      = ["Autoviz no está instalado. Intentando instalarlo...",
         "No se pudo instalar Autoviz. Por favor, instálalo manualmente. Error: " ++ e2] ∧
    (getAutomaticGraphicalEDA envG eda fs).1.result = .ok none ∧
    (getAutomaticGraphicalEDA envG eda fs).2 = fs := by
  simp [getAutomaticStatisticalEDA, getAutomaticGraphicalEDA, h1, h2, h3, h4]

/-- C7 witness: concrete environments in which both imports and both
retries fail. -/
theorem autoeda_degrade_and_continue_witness :
    (envSW.firstImport = .error "No module named sweetviz" ∧
     envSW.retryImport = .error "cannot import name sv from sweetviz" ∧
     envGW.firstImport = .error "No module named autoviz" ∧
     envGW.retryImport = .error "pip install failed") ∧
    ((getAutomaticStatisticalEDA envSW).printed
       = ["Sweetviz no está instalado. Intentando instalarlo...",
          "No se pudo instalar Sweetviz. Por favor, instálalo manualmente. Error: "
            ++ "cannot import name sv from sweetviz"] ∧
     (getAutomaticStatisticalEDA envSW).result = .ok none ∧
     (getAutomaticGraphicalEDA envGW (init dfW) fsEmpty).1.printed
       = ["Autoviz no está instalado. Intentando instalarlo...",
          "No se pudo instalar Autoviz. Por favor, instálalo manualmente. Error: "
            ++ "pip install failed"] ∧
     (getAutomaticGraphicalEDA envGW (init dfW) fsEmpty).1.result = .ok none ∧
     (getAutomaticGraphicalEDA envGW (init dfW) fsEmpty).2 = fsEmpty) :=
  ⟨⟨rfl, rfl, rfl, rfl⟩,
    autoeda_degrade_and_continue envSW envGW "No module named sweetviz"
      "cannot import name sv from sweetviz" "No module named autoviz"
      "pip install failed" (init dfW) fsEmpty rfl rfl rfl rfl⟩

/-- C8: no method call changes the bound dataset, and no method other than
`getAutomaticGraphicalEDA` touches the working directory. -/
theorem methods_preserve_dataset (m : Method) (env : ImportEnv)
    (pearson : List Cell → List Cell → ℚ)
    (eda : ExploratoryDataAnalysis) (fs : FS) :
    (runMethod m env pearson eda fs).1.dataset = eda.dataset ∧
    (m ≠ Method.mGetAutomaticGraphicalEDA →
      (runMethod m env pearson eda fs).2 = fs) := by
  cases m <;> simp [runMethod, setDescription]

/-- C8 witness: a concrete query call leaves the dataset and the working
directory unchanged. -/
theorem methods_preserve_dataset_witness :
    Method.mGetShape ≠ Method.mGetAutomaticGraphicalEDA ∧
    ((runMethod Method.mGetShape envOk pearsonZero (init dfW) fsEmpty).1.dataset
       = (init dfW).dataset ∧
     (runMethod Method.mGetShape envOk pearsonZero (init dfW) fsEmpty).2 = fsEmpty) :=
  ⟨by decide,
    ⟨(methods_preserve_dataset Method.mGetShape envOk pearsonZero (init dfW) fsEmpty).1,
     (methods_preserve_dataset Method.mGetShape envOk pearsonZero (init dfW) fsEmpty).2
       (by decide)⟩⟩

/-- C9: whenever the autoviz import resolves (directly or after the install
retry), `getAutomaticGraphicalEDA` writes the CSV serialization of the
dataset to the fixed file name `temp_dataset.csv` in the working directory,
overwriting whatever that file previously held; the file is present when
the call returns (never deleted), and no other file is touched. -/
theorem graphical_eda_writes_fixed_csv (env : ImportEnv)
    (eda : ExploratoryDataAnalysis) (fs : FS)
    (hsucc : env.firstImport = .ok () ∨ env.retryImport = .ok ()) :
    (getAutomaticGraphicalEDA env eda fs).2 csv_filename
      = some eda.dataset.to_csv ∧
    (∀ other, other ≠ csv_filename →
      (getAutomaticGraphicalEDA env eda fs).2 other = fs other) := by
  have key : (getAutomaticGraphicalEDA env eda fs).2
      = writeFile fs csv_filename eda.dataset.to_csv := by
    rcases hfi : env.firstImport with s | u
    · rcases hsucc with h | h
      · rw [hfi] at h
        cases h
      · rcases hd : env.delegateRun with s2 | u2 <;>
          simp [getAutomaticGraphicalEDA, hfi, h, hd]
    · rcases hd : env.delegateRun with s2 | u2 <;>
        simp [getAutomaticGraphicalEDA, hfi, hd]
  rw [key]
  constructor
  · simp [writeFile]
  · intro other hother
    simp [writeFile, hother]

/-- C9 witness: a successful run over the empty working directory. -/
theorem graphical_eda_writes_fixed_csv_witness :
    (envOk.firstImport = .ok () ∨ envOk.retryImport = .ok ()) ∧
    ((getAutomaticGraphicalEDA envOk (init dfW) fsEmpty).2 csv_filename
       = some (init dfW).dataset.to_csv ∧
     (∀ other, other ≠ csv_filename →
       (getAutomaticGraphicalEDA envOk (init dfW) fsEmpty).2 other = fsEmpty other)) :=
  ⟨Or.inl rfl,
    graphical_eda_writes_fixed_csv envOk (init dfW) fsEmpty (Or.inl rfl)⟩

/-- C3 witness: the partition on the concrete dataset with one int64 and
one object column. -/
theorem numeric_categorical_partition_witness :
    ((dfW.cols.map Column.name).Nodup ∧
     (∀ c ∈ dfW.cols,
       c.dtype ∈ ([.float64, .int64] : List Dtype) ∨
       c.dtype ∈ ([.object, .category] : List Dtype))) ∧
    ((∀ c ∈ dfW.cols,
       c.name ∈ get_numeric_columns (init dfW) ∨
       c.name ∈ get_categorical_columns (init dfW)) ∧
     (∀ x ∈ get_numeric_columns (init dfW),
       x ∉ get_categorical_columns (init dfW))) :=
  ⟨⟨by decide, by decide⟩,
    numeric_categorical_partition dfW (by decide) (by decide)⟩

end EDA
